import Mathlib

/-!
Shallow embedding of the SkyReady astrophotography-score application
(services/score.js, services/astro.js, services/weather.js,
services/cache.js and app.js), together with theorems checking the
specification's claims about it.

Conventions of the embedding:
* JS numbers are modelled as `ℚ`; absolute instants are modelled as `ℤ`
  (minutes since an epoch for forecast data, an abstract clock for the
  cache); JS `Math.round` (half toward plus infinity) is `jsRound`.
* A JS value that may be `undefined` is an `Option`; comparisons against
  `undefined` are `false` in JS, which the helpers `oge`/`ole` reproduce.
* `x || d` on numbers (which replaces both `undefined` and `0` by `d`)
  is `jsOr`; on strings it is `jsOrStr`.
* Network fetches are modelled by passing the (possibly failed) HTTP
  response as an explicit argument; the cache lookup a fetcher performs
  first is likewise an explicit `Option` argument.
-/

namespace SkyReady

/-- JS `Math.round`: round half toward plus infinity. -/
def jsRound (q : ℚ) : ℤ := ⌊q + 1/2⌋

/-- JS comparison `x >= b` where `x` may be `undefined` (then `false`). -/
def oge (x : Option ℚ) (b : ℚ) : Bool :=
  match x with
  | some v => decide (b ≤ v)
  | none => false

/-- JS comparison `x <= b` where `x` may be `undefined` (then `false`). -/
def ole (x : Option ℚ) (b : ℚ) : Bool :=
  match x with
  | some v => decide (v ≤ b)
  | none => false

/-- JS `x || d` on a possibly-undefined number: `undefined` and `0` give `d`. -/
def jsOr (x : Option ℚ) (d : ℚ) : ℚ :=
  match x with
  | some v => if v = 0 then d else v
  | none => d

/-- JS `x || d` on a possibly-undefined string: `undefined` and `""` give `d`. -/
def jsOrStr (x : Option String) (d : String) : String :=
  match x with
  | some s => if s = "" then d else s
  | none => d

/-- An HTTP response as seen by a fetcher: `ok` is the 2xx flag of `fetch`. -/
structure HttpResponse (α : Type) where
  ok : Bool
  body : α

/-- A failed upstream fetch: either no response at all (network error,
modelled by `none`) or a non-2xx response. -/
def fetchFailed {α : Type} (r : Option (HttpResponse α)) : Prop :=
  ∀ x ∈ r, x.ok = false

/-! ## Score service (src/services/score.js) -/

/-- One row of `modeWeights`. -/
structure Weights where
  cloudCover : ℚ
  seeing : ℚ
  transparency : ℚ
  moonPhase : ℚ
  humidity : ℚ
deriving DecidableEq

def generalWeights : Weights :=
  { cloudCover := 0.40, seeing := 0.20, transparency := 0.20, moonPhase := 0.15, humidity := 0.05 }

def deepSkyWeights : Weights :=
  { cloudCover := 0.40, seeing := 0.10, transparency := 0.30, moonPhase := 0.15, humidity := 0.05 }

def planetaryWeights : Weights :=
  { cloudCover := 0.35, seeing := 0.40, transparency := 0.10, moonPhase := 0.10, humidity := 0.05 }

def milkyWayWeights : Weights :=
  { cloudCover := 0.45, seeing := 0.05, transparency := 0.25, moonPhase := 0.20, humidity := 0.05 }

/-- The member names of `Object.prototype` in a standard JS environment.
Reading any of these on a plain object literal yields an inherited truthy
value (a function, or the prototype object itself for `__proto__`), not
`undefined`. -/
def objectPrototypeKeys : List String :=
  ["constructor", "hasOwnProperty", "isPrototypeOf", "propertyIsEnumerable",
   "toLocaleString", "toString", "valueOf", "__defineGetter__",
   "__defineSetter__", "__lookupGetter__", "__lookupSetter__", "__proto__"]

/-- A JS property read on a plain object literal: an own data property, a
truthy value inherited from `Object.prototype`, or `undefined`. -/
inductive PropertyLookup (α : Type) where
  | own (v : α)
  | inherited
  | absent
deriving DecidableEq

/-- Indexing into the `MODE_WEIGHTS` object literal, `MODE_WEIGHTS[mode]`:
a JS bracket lookup also consults the prototype chain, so the member names
of `Object.prototype` yield an inherited (truthy) value, not `undefined`. -/
def modeWeights (mode : String) : PropertyLookup Weights :=
  if mode = "general" then .own generalWeights
  else if mode = "deep-sky" then .own deepSkyWeights
  else if mode = "planetary" then .own planetaryWeights
  else if mode = "milky-way" then .own milkyWayWeights
  else if mode ∈ objectPrototypeKeys then .inherited
  else .absent

/-- `MODE_WEIGHTS[mode] || MODE_WEIGHTS.general`: an own row and an
inherited `Object.prototype` member are both truthy and kept — `none` here
stands for the inherited junk object, whose weight fields all read as
`undefined` — and only `undefined` falls back to the general row. -/
def resolveWeights (lookup : PropertyLookup Weights) : Option Weights :=
  match lookup with
  | .own w => some w
  | .inherited => none
  | .absent => some generalWeights

/-- JS `subscore * weights.field`: an `undefined` weight gives `NaN`
(modelled as `none`). -/
def jsMulW (a : ℚ) (w : Option ℚ) : Option ℚ := w.map (fun x => a * x)

/-- JS `+` where either operand may already be `NaN`. -/
def jsAddN (x y : Option ℚ) : Option ℚ :=
  match x, y with
  | some a, some b => some (a + b)
  | _, _ => none

/-- `Math.round` on a possibly-`NaN` number (`Math.round(NaN)` is `NaN`). -/
def jsRoundN (q : Option ℚ) : Option ℤ := q.map jsRound

/-- JS `score >= b` where the score may be `NaN` (then `false`). -/
def igte (x : Option ℤ) (b : ℤ) : Bool :=
  match x with
  | some v => decide (b ≤ v)
  | none => false

/-- The fused conditions object handed to the score engine.  Fields the
various call sites leave out are `none` (JS `undefined`); `isMoonUp` is
used only for truthiness, so a plain `Bool` with default `false`. -/
structure Conditions where
  timestamp : Option ℤ := none
  cloudCover : Option ℚ := none
  cloudCoverMin : Option ℚ := none
  cloudCoverMax : Option ℚ := none
  cloudCoverConfidence : Option String := none
  seeing : Option ℚ := none
  seeingLabel : Option String := none
  transparency : Option ℚ := none
  transparencyLabel : Option String := none
  temperature : Option ℚ := none
  humidity : Option ℚ := none
  windSpeed : Option ℚ := none
  windDirectionLabel : Option String := none
  moonPhase : Option ℚ := none
  moonIllumination : Option ℚ := none
  moonPhaseName : Option String := none
  isMoonUp : Bool := false
  sunrise : Option ℤ := none
  sunset : Option ℤ := none

structure Warning where
  type : String
  severity : String
  message : String
  icon : String
deriving DecidableEq

/-- A breakdown entry; the weight is `undefined` (`none`) when the mode
string resolved to an inherited `Object.prototype` member. -/
structure FactorScore where
  score : ℚ
  weight : Option ℚ

structure Breakdown where
  cloud : FactorScore
  seeing : FactorScore
  transparency : FactorScore
  moon : FactorScore
  humidity : FactorScore

/-- The score object; `overallScore = none` models the `NaN` the program
produces when the resolved weights object has no numeric fields. -/
structure Score where
  overallScore : Option ℤ
  scoreRating : String
  scoreUncertainty : ℤ
  breakdown : Breakdown
  warnings : List Warning
  bestObservingTimeNote : String

/-- `_calculateCloudScore`: `undefined`/`null` gives 50, else the clamped
linear inverse. -/
def calculateCloudScore (cloudCover : Option ℚ) : ℚ :=
  match cloudCover with
  | none => 50
  | some cc => max 0 (min 100 (100 - cc))

/-- `_calculateSeeingScore`: falsy (`undefined` or 0) gives 60, else
`min(100, seeing * 20)`. -/
def calculateSeeingScore (seeing : Option ℚ) : ℚ :=
  match seeing with
  | none => 60
  | some s => if s = 0 then 60 else min 100 (s * 20)

/-- `_calculateTransparencyScore`. -/
def calculateTransparencyScore (transparency : Option ℚ) : ℚ :=
  match transparency with
  | none => 60
  | some t => if t = 0 then 60 else min 100 (t * 20)

/-- `_calculateMoonScore`. -/
def calculateMoonScore (illumination : Option ℚ) (isMoonUp : Bool) : ℚ :=
  match illumination with
  | none => 80
  | some ill =>
    if !isMoonUp then 100 - ill * 0.3
    else max 0 (100 - ill)

/-- `_calculateHumidityScore`. -/
def calculateHumidityScore (humidity : Option ℚ) : ℚ :=
  match humidity with
  | none => 70
  | some h =>
    if h ≤ 50 then 100
    else if h ≤ 60 then 90
    else if h ≤ 70 then 75
    else if h ≤ 80 then 50
    else if h ≤ 90 then 25
    else 10

/-- `_calculateUncertainty`: cloud-cover spread mapped to score points;
`undefined - undefined || 0` is 0. -/
def calculateUncertainty (c : Conditions) : ℤ :=
  let cloudSpread : ℚ :=
    match c.cloudCoverMax, c.cloudCoverMin with
    | some mx, some mn => mx - mn
    | _, _ => 0
  if 40 < cloudSpread then 20
  else if 25 < cloudSpread then 15
  else if 15 < cloudSpread then 10
  else if 5 < cloudSpread then 5
  else 0

/-- `_getScoreRating` with the `RATING_THRESHOLDS` values inlined; every
comparison against `NaN` is false, so a `NaN` score rates "poor". -/
def getScoreRating (score : Option ℤ) : String :=
  if igte score 90 then "perfect"
  else if igte score 70 then "very-good"
  else if igte score 50 then "good"
  else if igte score 30 then "moderate"
  else "poor"

/-- The `Math.round(conditions.windSpeed)` interpolated into the wind
messages (`NaN` when the speed is `undefined`). -/
def windKmh (w : Option ℚ) : String :=
  match w with
  | some v => toString (jsRound v)
  | none => "NaN"

/-- `_generateWarnings`, with the five rules in evaluation order. -/
def generateWarnings (c : Conditions) : List Warning :=
  (if oge c.humidity 85 && ole c.temperature 5 then
    [{ type := "fog-risk", severity := "high",
       message := "Hohes Beschlag-Risiko: Taukappe empfohlen", icon := "💧" }]
  else if oge c.humidity 75 then
    [{ type := "fog-risk", severity := "medium",
       message := "Erhöhte Luftfeuchtigkeit: Beschlag möglich", icon := "💧" }]
  else []) ++
  (if oge c.windSpeed 30 then
    [{ type := "high-wind", severity := "high",
       message := "Starker Wind (" ++ windKmh c.windSpeed ++ " km/h): Stativstabilität gefährdet",
       icon := "💨" }]
  else if oge c.windSpeed 20 then
    [{ type := "high-wind", severity := "medium",
       message := "Wind (" ++ windKmh c.windSpeed ++ " km/h): Gewichte empfohlen",
       icon := "💨" }]
  else []) ++
  (if oge c.cloudCover 70 then
    [{ type := "clouds", severity := "high",
       message := "Starke Bewölkung: Beobachtung kaum möglich", icon := "☁️" }]
  else if oge c.cloudCover 40 then
    [{ type := "clouds", severity := "medium",
       message := "Teilweise bewölkt: Wolkenlücken nutzen", icon := "⛅" }]
  else []) ++
  (if c.isMoonUp && oge c.moonIllumination 70 then
    [{ type := "moon-bright", severity := "medium",
       message := "Heller Mond: Deep-Sky erschwert", icon := "🌕" }]
  else []) ++
  (if c.cloudCoverConfidence = some "low" then
    [{ type := "low-confidence", severity := "low",
       message := "Vorhersage unsicher: Wettermodelle nicht einig", icon := "⚠️" }]
  else [])

/-- `_getBestTimeNote` (the conditions argument is unused in the source too). -/
def getBestTimeNote (score : Option ℤ) (_ : Conditions) : String :=
  if igte score 80 then "Ideale Bedingungen erwartet"
  else if igte score 60 then "Gute Bedingungen mit kleinen Einschränkungen"
  else if igte score 40 then "Beobachtung möglich, aber erschwert"
  else "Bedingungen nicht optimal"

/-- `calculateScore(conditions, mode)`; the JS default parameter
`mode = 'general'` corresponds to passing `"general"` here. -/
def calculateScore (conditions : Conditions) (mode : String) : Score :=
  let weights := resolveWeights (modeWeights mode)
  let cloudScore := calculateCloudScore conditions.cloudCover
  let seeingScore := calculateSeeingScore conditions.seeing
  let transparencyScore := calculateTransparencyScore conditions.transparency
  let moonScore := calculateMoonScore conditions.moonIllumination conditions.isMoonUp
  let humidityScore := calculateHumidityScore conditions.humidity
  let overallScore := jsRoundN
    (jsAddN (jsAddN (jsAddN (jsAddN
      (jsMulW cloudScore (weights.map (fun w => w.cloudCover)))
      (jsMulW seeingScore (weights.map (fun w => w.seeing))))
      (jsMulW transparencyScore (weights.map (fun w => w.transparency))))
      (jsMulW moonScore (weights.map (fun w => w.moonPhase))))
      (jsMulW humidityScore (weights.map (fun w => w.humidity))))
  { overallScore := overallScore
    scoreRating := getScoreRating overallScore
    scoreUncertainty := calculateUncertainty conditions
    breakdown :=
      { cloud := { score := cloudScore, weight := weights.map (fun w => w.cloudCover) }
        seeing := { score := seeingScore, weight := weights.map (fun w => w.seeing) }
        transparency :=
          { score := transparencyScore, weight := weights.map (fun w => w.transparency) }
        moon := { score := moonScore, weight := weights.map (fun w => w.moonPhase) }
        humidity := { score := humidityScore, weight := weights.map (fun w => w.humidity) } }
    warnings := generateWarnings conditions
    bestObservingTimeNote := getBestTimeNote overallScore conditions }

/-! ## Astro service (src/services/astro.js) -/

/-- One processed entry of the 7Timer series (the fields the rest of the
system reads). -/
structure AstroHour where
  timestamp : ℤ
  timepoint : ℤ := 0
  seeing : ℚ := 3
  seeingLabel : String := "Durchschnittlich"
  transparency : ℚ := 3
  transparencyLabel : String := "Durchschnittlich"
  cloudCover : ℚ := 50
  humidity : ℚ := 50
  windSpeed : ℚ := 0
  windDirection : Option ℚ := none
  atmosphereStability : String := "Unbekannt"

structure AstroData where
  init : Option ℤ := none
  hourly : List AstroHour := []
  isDefault : Bool := false

/-- `_getDefaultAstroData`. -/
def getDefaultAstroData : AstroData :=
  { init := none, hourly := [], isDefault := true }

/-- `_convertSeeing`: 7Timer 1-8 (lower = better) to 1-5 (5 = best). -/
def convertSeeing (value : Option ℚ) : ℚ :=
  match value with
  | none => 3
  | some v =>
    if v = 0 then 3
    else if v ≤ 2 then 5
    else if v ≤ 4 then 4
    else if v = 5 then 3
    else if v = 6 then 2
    else 1

/-- `_convertTransparency`: 7Timer 1-8 (higher = better) to 1-5. -/
def convertTransparency (value : Option ℚ) : ℚ :=
  match value with
  | none => 3
  | some v =>
    if v = 0 then 3
    else if 7 ≤ v then 5
    else if 5 ≤ v then 4
    else if v = 4 then 3
    else if 2 ≤ v then 2
    else 1

def qualityLabel (converted : ℚ) : String :=
  if converted = 5 then "Ausgezeichnet"
  else if converted = 4 then "Gut"
  else if converted = 3 then "Durchschnittlich"
  else if converted = 2 then "Unterdurchschnittlich"
  else if converted = 1 then "Schlecht"
  else "Unbekannt"

/-- `_getSeeingLabel`. -/
def getSeeingLabel (value : Option ℚ) : String := qualityLabel (convertSeeing value)

/-- `_getTransparencyLabel`. -/
def getTransparencyLabel (value : Option ℚ) : String := qualityLabel (convertTransparency value)

/-- `_convertCloudCover`: 7Timer 1-9 bucket to its midpoint percentage;
out-of-table (including falsy) codes give 50. -/
def convertCloudCover (value : Option ℚ) : ℚ :=
  match value with
  | none => 50
  | some v =>
    if v = 1 then 3 else if v = 2 then 12.5 else if v = 3 then 25
    else if v = 4 then 37.5 else if v = 5 then 50 else if v = 6 then 62.5
    else if v = 7 then 75 else if v = 8 then 87.5 else if v = 9 then 97
    else 50

/-- `_getStabilityLabel`. -/
def getStabilityLabel (li : Option ℚ) : String :=
  match li with
  | none => "Unbekannt"
  | some v =>
    if 6 ≤ v then "Sehr stabil"
    else if 1 ≤ v then "Stabil"
    else if -3 ≤ v then "Leicht instabil"
    else "Instabil"

/-- `_convertHumidity`: discrete code -4..16 to a percentage; unknown gives 50. -/
def convertHumidity (rh2m : Option ℤ) : ℚ :=
  match rh2m with
  | none => 50
  | some r =>
    if r = -4 then 5 else if r = -3 then 10 else if r = -2 then 15
    else if r = -1 then 20 else if r = 0 then 30 else if r = 1 then 40
    else if r = 2 then 50 else if r = 3 then 60 else if r = 4 then 70
    else if r = 5 then 80 else if r = 6 then 85 else if r = 7 then 90
    else if r = 8 then 92 else if r = 9 then 95 else if r = 10 then 97
    else if r = 11 then 99 else if r = 12 then 100 else if r = 13 then 100
    else if r = 14 then 100 else if r = 15 then 100 else if r = 16 then 100
    else 50

/-- `_convertWindSpeed`: wind-speed code 1-8 to km/h; unknown gives 0. -/
def convertWindSpeed (speedCode : Option ℤ) : ℚ :=
  match speedCode with
  | none => 0
  | some c =>
    if c = 1 then 0.5 else if c = 2 then 3 else if c = 3 then 9
    else if c = 4 then 16 else if c = 5 then 25 else if c = 6 then 36
    else if c = 7 then 47 else if c = 8 then 59
    else 0

/-- One raw entry of the 7Timer `dataseries`. -/
structure SevenTimerEntry where
  timepoint : ℤ
  seeing : Option ℚ := none
  transparency : Option ℚ := none
  cloudcover : Option ℚ := none
  lifted_index : Option ℚ := none
  rh2m : Option ℤ := none
  windSpeedCode : Option ℤ := none
  windDirection : Option ℚ := none

/-- The raw 7Timer payload.  `initBase` is the instant (minutes) encoded by
the `init` field, `none` when absent (`_parseInitTime` then uses the current
time); `dataseries` is `none` when the field is missing from the payload. -/
structure SevenTimerPayload where
  initBase : Option ℤ := none
  dataseries : Option (List SevenTimerEntry) := none

/-- `_processAstroData` (`now` is the clock `_parseInitTime` falls back to). -/
def processAstroData (now : ℤ) (data : SevenTimerPayload) : AstroData :=
  match data.dataseries with
  | none => getDefaultAstroData
  | some series =>
    let baseTime := data.initBase.getD now
    { init := data.initBase
      hourly := series.map (fun entry =>
        { timestamp := baseTime + entry.timepoint * 60
          timepoint := entry.timepoint
          seeing := convertSeeing entry.seeing
          seeingLabel := getSeeingLabel entry.seeing
          transparency := convertTransparency entry.transparency
          transparencyLabel := getTransparencyLabel entry.transparency
          cloudCover := convertCloudCover entry.cloudcover
          humidity := convertHumidity entry.rh2m
          windSpeed := convertWindSpeed entry.windSpeedCode
          windDirection := entry.windDirection
          atmosphereStability := getStabilityLabel entry.lifted_index })
      isDefault := false }

/-- `fetchAstroData`: cached value wins; a failed fetch (network error or
non-2xx) is recovered by substituting `_getDefaultAstroData`.  The cache
write on success is a side effect not reflected in the returned value. -/
def fetchAstroData (now : ℤ) (cached : Option AstroData)
    (response : Option (HttpResponse SevenTimerPayload)) : AstroData :=
  match cached with
  | some c => c
  | none =>
    match response with
    | none => getDefaultAstroData
    | some r => if r.ok then processAstroData now r.body else getDefaultAstroData

/-! ## Weather service (src/services/weather.js) -/

/-- One processed hourly weather record (`_processWeatherData` output). -/
structure WeatherHour where
  timestamp : ℤ
  cloudCover : ℚ := 0
  cloudCoverMin : ℚ := 0
  cloudCoverMax : ℚ := 0
  cloudCoverSpread : ℚ := 0
  cloudCoverConfidence : String := "high"
  temperature : Option ℚ := none
  humidity : Option ℚ := none
  windSpeed : Option ℚ := none
  windDirectionLabel : Option String := none
  precipitationProbability : ℚ := 0

structure WeatherData where
  hourly : List WeatherHour

/-- Truncation toward zero, as JS number-to-integer conversion does. -/
def ratTrunc (q : ℚ) : ℤ := if 0 ≤ q then ⌊q⌋ else ⌈q⌉

/-- JS `%` remainder (sign of the dividend). -/
def jsRem (a b : ℚ) : ℚ := a - b * (ratTrunc (a / b) : ℚ)

/-- `_getWindDirectionLabel`; a negative rounded index falls outside the
directions array (JS `undefined`), hence `none`. -/
def getWindDirectionLabel (degrees : ℚ) : Option String :=
  let index := Int.tmod (jsRound (jsRem degrees 360 / 45)) 8
  if index < 0 then none
  else ["N", "NE", "E", "SE", "S", "SW", "W", "NW"].get? index.toNat

/-- Parallel-array lookup `xs[i]` (past the end or a JSON `null` is `none`). -/
def idxOpt (l : List (Option ℚ)) (i : ℕ) : Option ℚ := (l.get? i).join

/-- Parallel-array lookup with the JS `|| 0` default. -/
def idxOr0 (l : List (Option ℚ)) (i : ℕ) : ℚ := (idxOpt l i).getD 0

/-- The raw Open-Meteo hourly block (parallel arrays indexed by hour). -/
structure OpenMeteoHourly where
  time : List ℤ
  cloud_cover : List (Option ℚ) := []
  cloud_cover_low : List (Option ℚ) := []
  cloud_cover_mid : List (Option ℚ) := []
  cloud_cover_high : List (Option ℚ) := []
  temperature_2m : List (Option ℚ) := []
  relative_humidity_2m : List (Option ℚ) := []
  wind_speed_10m : List (Option ℚ) := []
  wind_direction_10m : List (Option ℚ) := []
  precipitation_probability : List (Option ℚ) := []

structure OpenMeteoPayload where
  hourly : OpenMeteoHourly

/-- `_processWeatherData`: cloud-layer spread as a synthetic uncertainty. -/
def processWeatherDataW (data : OpenMeteoPayload) : WeatherData :=
  let hourly := data.hourly
  { hourly := hourly.time.enum.map (fun p =>
      let i := p.1
      let totalCloud := idxOr0 hourly.cloud_cover i
      let lowCloud := idxOr0 hourly.cloud_cover_low i
      let midCloud := idxOr0 hourly.cloud_cover_mid i
      let highCloud := idxOr0 hourly.cloud_cover_high i
      let cloudSpread := max lowCloud (max midCloud highCloud) - min lowCloud (min midCloud highCloud)
      { timestamp := p.2
        cloudCover := totalCloud
        cloudCoverMin := max 0 (totalCloud - cloudSpread * 0.3)
        cloudCoverMax := min 100 (totalCloud + cloudSpread * 0.3)
        cloudCoverSpread := cloudSpread
        cloudCoverConfidence :=
          if cloudSpread < 20 then "high" else if cloudSpread < 40 then "medium" else "low"
        temperature := idxOpt hourly.temperature_2m i
        humidity := idxOpt hourly.relative_humidity_2m i
        windSpeed := idxOpt hourly.wind_speed_10m i
        windDirectionLabel := (idxOpt hourly.wind_direction_10m i).bind getWindDirectionLabel
        precipitationProbability := idxOr0 hourly.precipitation_probability i }) }

/-- `fetchWeatherData`: cached value wins; a failed fetch (network error or
non-2xx response) is rethrown, i.e. the error propagates to the caller. -/
def fetchWeatherData (cached : Option WeatherData)
    (response : Option (HttpResponse OpenMeteoPayload)) : Except String WeatherData :=
  match cached with
  | some c => Except.ok c
  | none =>
    match response with
    | none => Except.error "Weather fetch failed"
    | some r =>
      if r.ok then Except.ok (processWeatherDataW r.body)
      else Except.error "Weather API error"

/-- One entry of `moonPhases` produced by `_calculateMoonPhase`. -/
structure MoonData where
  phase : ℚ
  illumination : ℚ
  phaseName : String := ""
  isWaxing : Bool := true

/-- The `fetchAstronomicalData` result consumed by the app. -/
structure Astronomical where
  moonPhases : List MoonData := []
  sunrise : List ℤ := []
  sunset : List ℤ := []

/-! ## Cache service (src/services/cache.js) -/

/-- The `CACHE_PREFIX` constant. -/
def cachePrefixStr : String := "astroweather_cache_"

/-- `_generateKey`. -/
def generateKey (key : String) : String := cachePrefixStr ++ key

/-- A parsed cache entry (`{ data, expiry, timestamp }`). -/
structure CacheEntryC (α : Type) where
  data : α
  expiry : ℤ
  timestamp : ℤ
deriving DecidableEq

/-- Both tiers.  `memoryCache` models the JS `Map`; `storage` models
`localStorage`, whose values parse to `some entry` or fail to parse
(`none`, a malformed entry).  Both are insertion-ordered association
lists, as the JS containers are. -/
structure CacheState (α : Type) where
  memoryCache : List (String × CacheEntryC α) := []
  storage : List (String × Option (CacheEntryC α)) := []
deriving DecidableEq

/-- Association-list lookup (first match). -/
def assocGet (k : String) : List (String × β) → Option β
  | [] => none
  | (k', v) :: rest => if k' = k then some v else assocGet k rest

/-- Association-list update in place, appending when absent — the
behaviour of `Map.set` and `localStorage.setItem`. -/
def assocSet (k : String) (v : β) : List (String × β) → List (String × β)
  | [] => [(k, v)]
  | (k', v') :: rest => if k' = k then (k, v) :: rest else (k', v') :: assocSet k v rest

/-- Association-list removal — `Map.delete` / `localStorage.removeItem`. -/
def assocRemove (k : String) : List (String × β) → List (String × β)
  | [] => []
  | (k', v) :: rest => if k' = k then rest else (k', v) :: assocRemove k rest

/-- The `localStorage` phase of `get`: promote a live entry into the memory
cache, purge an expired one, treat a malformed one as a miss. -/
def cacheGetStorage (cacheKey : String) (now : ℤ) (s : CacheState α) :
    Option α × CacheState α :=
  match assocGet cacheKey s.storage with
  | some (some cached) =>
    if now < cached.expiry then
      (some cached.data, { s with memoryCache := assocSet cacheKey cached s.memoryCache })
    else
      (none, { s with storage := assocRemove cacheKey s.storage })
  | some none => (none, s)
  | none => (none, s)

/-- `get(key)`: memory tier first, then the durable tier; returns the value
(or `none`) together with the mutated state. -/
def cacheGet (key : String) (now : ℤ) (s : CacheState α) : Option α × CacheState α :=
  let cacheKey := generateKey key
  match assocGet cacheKey s.memoryCache with
  | some cached =>
    if now < cached.expiry then (some cached.data, s)
    else cacheGetStorage cacheKey now { s with memoryCache := assocRemove cacheKey s.memoryCache }
  | none => cacheGetStorage cacheKey now s

/-- The `(key, timestamp)` list `_cleanupStorage` builds: every key with the
cache prefix, with `data.timestamp || 0` falling back to 0 for malformed
entries. -/
def cleanupEntries (storage : List (String × Option (CacheEntryC α))) : List (String × ℤ) :=
  (storage.filter (fun p => p.1.startsWith cachePrefixStr)).map
    (fun p => (p.1, match p.2 with | some e => e.timestamp | none => 0))

/-- `_cleanupStorage`: sort the cache entries by creation time ascending
(JS `Array.sort` is stable; `insertionSort` is the stable sort here) and
remove the oldest `Math.ceil(n / 2)` of them. -/
def cleanupStorage (storage : List (String × Option (CacheEntryC α))) :
    List (String × Option (CacheEntryC α)) :=
  let entries := cleanupEntries storage
  let sorted := List.insertionSort (fun a b => a.2 ≤ b.2) entries
  let toRemove := (entries.length + 1) / 2
  (sorted.take toRemove).foldl (fun st e => assocRemove e.1 st) storage

/-- `set(key, data, ttl)` at clock `now`.  `durableOk` is whether
`localStorage.setItem` succeeds; on failure the entry is still in the
memory tier, the exception is swallowed and `_cleanupStorage` runs —
the durable write is not retried. -/
def cacheSet (key : String) (data : α) (ttl now : ℤ) (durableOk : Bool)
    (s : CacheState α) : CacheState α :=
  let cacheKey := generateKey key
  let cached : CacheEntryC α := { data := data, expiry := now + ttl, timestamp := now }
  let mem := assocSet cacheKey cached s.memoryCache
  if durableOk then
    { memoryCache := mem, storage := assocSet cacheKey (some cached) s.storage }
  else
    { memoryCache := mem, storage := cleanupStorage s.storage }

/-! ## App orchestration (src/app.js) -/

/-- Minutes per day / per hour; timestamps are minutes since an epoch and
`tz` is the local-time offset in minutes, so local calendar date and local
hour are the floor divisions below (Lean's `/` on `ℤ` rounds toward
negative infinity for a positive divisor, matching calendar arithmetic). -/
def dateKey (tz ts : ℤ) : ℤ := (ts + tz) / 1440

/-- `Date.getHours()` in local time. -/
def localHour (tz ts : ℤ) : ℤ := ((ts + tz) / 60) % 24

/-- `findCurrentHourIndex`: index just before the first hour at or after
`now` (clamped at 0), or 0 when every hour is in the past. -/
def findCurrentHourIndex (now : ℤ) (hourlyData : List WeatherHour) : ℕ :=
  match hourlyData.findIdx? (fun h => decide (now ≤ h.timestamp)) with
  | some i => i - 1
  | none => 0

/-- `d < minDiff` where `minDiff` starts as `Infinity` (`none`). -/
def diffLtB (d : ℤ) : Option ℤ → Bool
  | none => true
  | some m => decide (d < m)

/-- The scan loop of `findMatchingAstroData`. -/
def findMatchingGo (targetTime : ℤ) (closest : AstroHour) (minDiff : Option ℤ) :
    List AstroHour → AstroHour
  | [] => closest
  | entry :: rest =>
    let diff := |entry.timestamp - targetTime|
    if diffLtB diff minDiff then findMatchingGo targetTime entry (some diff) rest
    else findMatchingGo targetTime closest minDiff rest

/-- `findMatchingAstroData`: nearest-neighbour match on the astro series
(`closest` starts at `hourly[0]`, `minDiff` at `Infinity`). -/
def findMatchingAstroData (astroData : AstroData) (targetTime : ℤ) : Option AstroHour :=
  match astroData.hourly with
  | [] => none
  | h :: rest => some (findMatchingGo targetTime h none (h :: rest))

/-- `isMoonUp`: the simplified evening/night approximation. -/
def isMoonUpApprox (tz time : ℤ) : Bool :=
  let hour := localHour tz time
  decide (20 ≤ hour) || decide (hour ≤ 5)

/-- `processWeatherData`'s conditions fusion.  With an empty hourly series
the JS code would fault on `currentHour.timestamp`, modelled as `none`. -/
def processWeatherDataApp (tz now : ℤ) (weatherData : WeatherData)
    (astroData : AstroData) (astronomicalData : Option Astronomical) : Option Conditions :=
  match weatherData.hourly with
  | [] => none
  | h0 :: _ =>
    let currentHour := ((weatherData.hourly).get? (findCurrentHourIndex now weatherData.hourly)).getD h0
    let currentAstro := findMatchingAstroData astroData now
    let moonData := astronomicalData.bind (fun a => a.moonPhases.get? 0)
    some
      { timestamp := some currentHour.timestamp
        cloudCover := some currentHour.cloudCover
        cloudCoverMin := some currentHour.cloudCoverMin
        cloudCoverMax := some currentHour.cloudCoverMax
        cloudCoverConfidence := some currentHour.cloudCoverConfidence
        seeing := some (jsOr (currentAstro.map (fun a => a.seeing)) 3)
        seeingLabel := some (jsOrStr (currentAstro.map (fun a => a.seeingLabel)) "Durchschnittlich")
        transparency := some (jsOr (currentAstro.map (fun a => a.transparency)) 3)
        transparencyLabel :=
          some (jsOrStr (currentAstro.map (fun a => a.transparencyLabel)) "Durchschnittlich")
        temperature := currentHour.temperature
        humidity := currentHour.humidity
        windSpeed := currentHour.windSpeed
        windDirectionLabel := currentHour.windDirectionLabel
        moonPhase := moonData.map (fun m => m.phase)
        moonIllumination := moonData.map (fun m => m.illumination)
        moonPhaseName := moonData.map (fun m => m.phaseName)
        isMoonUp := isMoonUpApprox tz now
        sunrise := astronomicalData.bind (fun a => a.sunrise.get? 0)
        sunset := astronomicalData.bind (fun a => a.sunset.get? 0) }

/-- One entry of a day's `hourlyScores`; `none` scores model `NaN`. -/
structure HourScore where
  timestamp : ℤ
  score : Option ℤ
  scoreMin : Option ℤ
  scoreMax : Option ℤ
deriving DecidableEq

structure DayForecast where
  date : ℤ
  overallScore : Option ℤ
  scoreRating : String
  scoreUncertainty : ℤ
  hourlyScores : List HourScore
  bestHour : Option ℤ

/-- JS `h.score > best.score`; false when either side is `NaN`. -/
def jgt (a b : Option ℤ) : Bool :=
  match a, b with
  | some x, some y => decide (y < x)
  | _, _ => false

/-- The loop of `findBestHour` (strict `>` keeps the first maximum). -/
def findBestHourGo (best : HourScore) : List HourScore → HourScore
  | [] => best
  | h :: rest => if jgt h.score best.score then findBestHourGo h rest else findBestHourGo best rest

/-- `findBestHour`. -/
def findBestHour : List HourScore → Option ℤ
  | [] => none
  | h :: rest => some (findBestHourGo h (h :: rest)).timestamp

/-- The night-hour filter of `buildForecastData` (`hour >= 18 || hour <= 6`). -/
def isNightHour (tz : ℤ) (h : WeatherHour) : Bool :=
  decide (18 ≤ localHour tz h.timestamp) || decide (localHour tz h.timestamp ≤ 6)

/-- The conditions object `buildForecastData` assembles per night hour. -/
def nightConditions (h : WeatherHour) (matchingAstro : Option AstroHour)
    (moonData : Option MoonData) : Conditions :=
  { cloudCover := some h.cloudCover
    cloudCoverMin := some h.cloudCoverMin
    cloudCoverMax := some h.cloudCoverMax
    seeing := some (jsOr (matchingAstro.map (fun a => a.seeing)) 3)
    transparency := some (jsOr (matchingAstro.map (fun a => a.transparency)) 3)
    humidity := h.humidity
    moonIllumination := some (jsOr (moonData.map (fun m => m.illumination)) 50)
    isMoonUp := true }

/-- JS `scores.reduce((a, b) => a + b, 0)`: a `NaN` hour score poisons the
sum. -/
def jsSumN (l : List (Option ℤ)) : Option ℤ :=
  l.foldl (fun acc x =>
    match acc, x with
    | some a, some b => some (a + b)
    | _, _ => none) (some 0)

/-- The `dates.forEach` body of `buildForecastData`: one `DayForecast`
from one calendar-day bucket. -/
def buildDay (tz : ℤ) (mode : String) (astroData : AstroData)
    (moonData : Option MoonData) (dk : ℤ) (hours : List WeatherHour) : DayForecast :=
  let nightHours := hours.filter (isNightHour tz)
  match nightHours with
  | [] =>
    { date := dk, overallScore := some 50, scoreRating := "good", scoreUncertainty := 10
      hourlyScores := [], bestHour := none }
  | _ =>
    let hourlyScores := nightHours.map (fun h =>
      let matchingAstro := findMatchingAstroData astroData h.timestamp
      let result := calculateScore (nightConditions h matchingAstro moonData) mode
      ({ timestamp := h.timestamp
         score := result.overallScore
         scoreMin := result.overallScore.map (fun v => max 0 (v - result.scoreUncertainty))
         scoreMax := result.overallScore.map (fun v => min 100 (v + result.scoreUncertainty)) } :
        HourScore))
    let scores := hourlyScores.map (fun h => h.score)
    let dayScore := (jsSumN scores).map (fun total => jsRound ((total : ℚ) / (scores.length : ℚ)))
    { date := dk, overallScore := dayScore, scoreRating := getScoreRating dayScore
      scoreUncertainty := 10, hourlyScores := hourlyScores
      bestHour := findBestHour hourlyScores }

/-- The grouping step of `buildForecastData`: append the hour to its day's
bucket, creating the bucket at the end on first sight (JS object keys keep
insertion order for these date-string keys). -/
def insertHourGo (k : ℤ) (h : WeatherHour) :
    List (ℤ × List WeatherHour) → List (ℤ × List WeatherHour)
  | [] => [(k, [h])]
  | (k', hs) :: rest =>
    if k' = k then (k', hs ++ [h]) :: rest else (k', hs) :: insertHourGo k h rest

/-- `dailyGroups`, in insertion order. -/
def groupByDay (tz : ℤ) (hours : List WeatherHour) : List (ℤ × List WeatherHour) :=
  hours.foldl (fun acc h => insertHourGo (dateKey tz h.timestamp) h acc) []

/-- `buildForecastData`: first four distinct local-date buckets, each
summarised by `buildDay` with that day's moon data. -/
def buildForecastData (tz : ℤ) (mode : String) (weatherData : WeatherData)
    (astroData : AstroData) (astronomicalData : Option Astronomical) : List DayForecast :=
  let dates := (groupByDay tz weatherData.hourly).take 4
  dates.enum.map (fun p =>
    buildDay tz mode astroData (astronomicalData.bind (fun a => a.moonPhases.get? p.1))
      p.2.1 p.2.2)

/-! ## Theorems about the claims -/

/-- C7: the seeing conversion from the source 1-8 scale to the target 1-5
scale maps exactly 1→5, 2→5, 3→4, 4→4, 5→3, 6→2, 7→1, 8→1. -/
theorem c7_convertSeeing_table :
    convertSeeing (some 1) = 5 ∧ convertSeeing (some 2) = 5 ∧
    convertSeeing (some 3) = 4 ∧ convertSeeing (some 4) = 4 ∧
    convertSeeing (some 5) = 3 ∧ convertSeeing (some 6) = 2 ∧
    convertSeeing (some 7) = 1 ∧ convertSeeing (some 8) = 1 := by
  refine ⟨?_, ?_, ?_, ?_, ?_, ?_, ?_, ?_⟩ <;> norm_num [convertSeeing]

/-- C1 (counterexample): the claim quantifies over all inputs, but the
seeing sub-score at seeing = -1 is `min 100 (-20) = -20`, outside
`[0, 100]` — `Math.min` only clamps from above. -/
theorem c1_subscores_clamped_cex :
    ¬ (0 ≤ calculateSeeingScore (some (-1)) ∧ calculateSeeingScore (some (-1)) ≤ 100) := by
  norm_num [calculateSeeingScore]

/-- C1 (amended): every sub-score lies in [0, 100] for arbitrary (possibly
absent) cloud-cover and humidity inputs, provided seeing and transparency
are nonnegative and the moon illumination lies in [0, 150]; in particular
the moon score at illumination 150 is ≥ 0 and the cloud score at
cloud cover -10 is ≤ 100. -/
theorem c1_subscores_clamped (cc se tr ill hu : Option ℚ) (up : Bool)
    (hse : ∀ x ∈ se, 0 ≤ x) (htr : ∀ x ∈ tr, 0 ≤ x)
    (hill : ∀ x ∈ ill, 0 ≤ x ∧ x ≤ 150) :
    (0 ≤ calculateCloudScore cc ∧ calculateCloudScore cc ≤ 100) ∧
    (0 ≤ calculateSeeingScore se ∧ calculateSeeingScore se ≤ 100) ∧
    (0 ≤ calculateTransparencyScore tr ∧ calculateTransparencyScore tr ≤ 100) ∧
    (0 ≤ calculateMoonScore ill up ∧ calculateMoonScore ill up ≤ 100) ∧
    (0 ≤ calculateHumidityScore hu ∧ calculateHumidityScore hu ≤ 100) ∧
    0 ≤ calculateMoonScore (some 150) up ∧ calculateCloudScore (some (-10)) ≤ 100 := by
  refine ⟨?_, ?_, ?_, ?_, ?_, ?_, ?_⟩
  · cases cc with
    | none => norm_num [calculateCloudScore]
    | some c =>
      simp only [calculateCloudScore]
      exact ⟨le_max_left 0 _, max_le (by norm_num) (min_le_left _ _)⟩
  · cases se with
    | none => norm_num [calculateSeeingScore]
    | some v =>
      have hv : 0 ≤ v := hse v (by simp)
      simp only [calculateSeeingScore]
      split_ifs with h0
      · norm_num
      · exact ⟨le_min (by norm_num) (by positivity), min_le_left _ _⟩
  · cases tr with
    | none => norm_num [calculateTransparencyScore]
    | some v =>
      have hv : 0 ≤ v := htr v (by simp)
      simp only [calculateTransparencyScore]
      split_ifs with h0
      · norm_num
      · exact ⟨le_min (by norm_num) (by positivity), min_le_left _ _⟩
  · cases ill with
    | none => norm_num [calculateMoonScore]
    | some v =>
      obtain ⟨hv0, hv150⟩ := hill v (by simp)
      cases up with
      | false =>
        simp only [calculateMoonScore, Bool.not_false, if_pos]
        constructor <;> nlinarith
      | true =>
        have h : calculateMoonScore (some v) true = max 0 (100 - v) := by
          simp [calculateMoonScore]
        rw [h]
        exact ⟨le_max_left 0 _, max_le (by norm_num) (by linarith)⟩
  · cases hu with
    | none => norm_num [calculateHumidityScore]
    | some v =>
      simp only [calculateHumidityScore]
      split_ifs <;> norm_num
  · cases up <;> norm_num [calculateMoonScore]
  · simp only [calculateCloudScore]
    exact max_le (by norm_num) (min_le_left _ _)

theorem c1_subscores_clamped_witness :
    (0 ≤ calculateCloudScore none ∧ calculateCloudScore none ≤ 100) ∧
    (0 ≤ calculateSeeingScore none ∧ calculateSeeingScore none ≤ 100) ∧
    (0 ≤ calculateTransparencyScore none ∧ calculateTransparencyScore none ≤ 100) ∧
    (0 ≤ calculateMoonScore none true ∧ calculateMoonScore none true ≤ 100) ∧
    (0 ≤ calculateHumidityScore none ∧ calculateHumidityScore none ≤ 100) ∧
    0 ≤ calculateMoonScore (some 150) true ∧ calculateCloudScore (some (-10)) ≤ 100 :=
  c1_subscores_clamped none none none none none true (by simp) (by simp) (by simp)

/-- The C2 scenario conditions exactly as the claim states them: the
temperature is not part of the scenario, so it is `undefined`. -/
def c2Conditions : Conditions :=
  { cloudCover := some 80, humidity := some 90, windSpeed := some 35,
    seeing := some 2, transparency := some 2, moonIllumination := some 90,
    isMoonUp := true }

/-- The scenario amended with a temperature at or below 5 °C, which the
fog-risk rule requires for the high severity. -/
def c2ConditionsCold : Conditions := { c2Conditions with temperature := some 0 }

/-- C2 (counterexample): on the scenario as stated (temperature absent),
`humidity >= 85 && undefined <= 5` is false in JS, so the fog-risk warning
is emitted with severity medium — no fog-risk/high warning exists. -/
theorem c2_scenario_cex :
    ((calculateScore c2Conditions "general").warnings.all
      (fun w => !(w.type == "fog-risk" && w.severity == "high"))) = true := by
  norm_num [calculateScore, generateWarnings, c2Conditions, oge, ole]
  decide

/-- C2 (amended): with temperature 0 °C added to the scenario (so that the
high fog-risk rule `humidity ≥ 85 ∧ temperature ≤ 5` fires), the warnings
include clouds/high, wind/high, fog-risk/high and bright-moon/medium, and
the overall score is 27 < 30 with rating "poor". -/
theorem c2_scenario_amended :
    ((calculateScore c2ConditionsCold "general").warnings.any
      (fun w => w.type == "clouds" && w.severity == "high")) = true ∧
    ((calculateScore c2ConditionsCold "general").warnings.any
      (fun w => w.type == "high-wind" && w.severity == "high")) = true ∧
    ((calculateScore c2ConditionsCold "general").warnings.any
      (fun w => w.type == "fog-risk" && w.severity == "high")) = true ∧
    ((calculateScore c2ConditionsCold "general").warnings.any
      (fun w => w.type == "moon-bright" && w.severity == "medium")) = true ∧
    (calculateScore c2ConditionsCold "general").overallScore = some 27 ∧
    (∃ v, (calculateScore c2ConditionsCold "general").overallScore = some v ∧ v < 30) ∧
    (calculateScore c2ConditionsCold "general").scoreRating = "poor" := by
  have hscore : (calculateScore c2ConditionsCold "general").overallScore = some 27 := by
    norm_num [calculateScore, c2ConditionsCold, c2Conditions, modeWeights, resolveWeights,
      generalWeights, jsMulW, jsAddN, jsRoundN,
      calculateCloudScore, calculateSeeingScore, calculateTransparencyScore,
      calculateMoonScore, calculateHumidityScore, jsRound, min_def, max_def]
  refine ⟨?_, ?_, ?_, ?_, hscore, ⟨27, hscore, by norm_num⟩, ?_⟩
  · norm_num [calculateScore, generateWarnings, c2ConditionsCold, c2Conditions, oge, ole]
  · norm_num [calculateScore, generateWarnings, c2ConditionsCold, c2Conditions, oge, ole]
  · norm_num [calculateScore, generateWarnings, c2ConditionsCold, c2Conditions, oge, ole]
  · norm_num [calculateScore, generateWarnings, c2ConditionsCold, c2Conditions, oge, ole]
  · have : (calculateScore c2ConditionsCold "general").scoreRating =
        getScoreRating (calculateScore c2ConditionsCold "general").overallScore := by
      simp [calculateScore]
    rw [this, hscore]
    norm_num [getScoreRating, igte]

theorem jsAddN_none_right (x : Option ℚ) : jsAddN x none = none := by
  cases x <;> rfl

/-- C10 (counterexample): the claim quantifies over every string that is
not one of the four modes, but `MODE_WEIGHTS['toString']` is the inherited,
truthy `Object.prototype.toString`, so `|| MODE_WEIGHTS.general` does not
fire; every weight then reads as `undefined`, the overall score is `NaN`
(here `none`) and the result differs from the `'general'` one. -/
theorem c10_unknown_mode_cex :
    (calculateScore {} "toString").overallScore = none ∧
    (calculateScore {} "general").overallScore = some 60 ∧
    calculateScore {} "toString" ≠ calculateScore {} "general" := by
  have hm : modeWeights "toString" = PropertyLookup.inherited := by decide
  have h1 : (calculateScore {} "toString").overallScore = none := by
    simp [calculateScore, hm, resolveWeights, jsRoundN, jsMulW, jsAddN_none_right]
  have hg : modeWeights "general" = PropertyLookup.own generalWeights := by
    simp [modeWeights]
  have h2 : (calculateScore {} "general").overallScore = some 60 := by
    norm_num [calculateScore, hg, resolveWeights, generalWeights, jsMulW, jsAddN, jsRoundN,
      calculateCloudScore, calculateSeeingScore, calculateTransparencyScore,
      calculateMoonScore, calculateHumidityScore, jsRound]
  exact ⟨h1, h2, fun h =>
    Option.noConfusion ((h1.symm.trans (congrArg Score.overallScore h)).trans h2)⟩

/-- C10 (amended): an unknown photography mode that is not the name of an
`Object.prototype` member makes the lookup `undefined`, so the `||`
fallback to the general weighting profile fires and `calculateScore`
returns exactly the same result as for `"general"` (a JS call omitting the
argument passes `'general'` via the default parameter, hence is the
`mode = "general"` case verbatim); for inherited names such as
`'toString'` the fallback does not occur and the result differs. -/
theorem c10_unknown_mode (c : Conditions) (mode : String)
    (h1 : mode ≠ "general") (h2 : mode ≠ "deep-sky")
    (h3 : mode ≠ "planetary") (h4 : mode ≠ "milky-way")
    (h5 : mode ∉ objectPrototypeKeys) :
    calculateScore c mode = calculateScore c "general" := by
  have hw : modeWeights mode = PropertyLookup.absent := by
    simp [modeWeights, h1, h2, h3, h4, h5]
  have hg : modeWeights "general" = PropertyLookup.own generalWeights := by
    simp [modeWeights]
  simp only [calculateScore, hw, hg, resolveWeights]

theorem c10_unknown_mode_witness :
    calculateScore {} "timelapse" = calculateScore {} "general" :=
  c10_unknown_mode {} "timelapse" (by decide) (by decide) (by decide) (by decide) (by decide)

/-- C9: a calendar-day bucket with no night hour (no local hour ≥ 18 or
≤ 6) yields the default `DayForecast`: score 50, rating "good", empty
hourly scores and no best hour. -/
theorem c9_no_night_hours (tz : ℤ) (mode : String) (astroData : AstroData)
    (moonData : Option MoonData) (dk : ℤ) (hours : List WeatherHour)
    (h : hours.filter (isNightHour tz) = []) :
    buildDay tz mode astroData moonData dk hours =
      { date := dk, overallScore := some 50, scoreRating := "good", scoreUncertainty := 10,
        hourlyScores := [], bestHour := none } := by
  simp only [buildDay, h]

/-- A single noon record (local hour 12 at offset 0): not a night hour. -/
def c9Hours : List WeatherHour := [{ timestamp := 720 }]

theorem c9_no_night_hours_witness :
    buildDay 0 "general" {} none 0 c9Hours =
      { date := 0, overallScore := some 50, scoreRating := "good", scoreUncertainty := 10,
        hourlyScores := [], bestHour := none } :=
  c9_no_night_hours 0 "general" {} none 0 c9Hours (by rfl)

/-- The scan's distance `|entryTime - targetInstant|`. -/
def entryDist (t : ℤ) (e : AstroHour) : ℤ := |e.timestamp - t|

/-- Loop invariant of `findMatchingAstroData`'s scan: starting from a
current best `closest` (with `minDiff` its distance), the result is no
farther than `closest`, occurs in `closest :: rest`, is strictly closer
than everything before it and at least as close as everything after it. -/
theorem findMatchingGo_spec (t : ℤ) (rest : List AstroHour) :
    ∀ closest : AstroHour,
      |(findMatchingGo t closest (some |closest.timestamp - t|) rest).timestamp - t| ≤
        |closest.timestamp - t| ∧
      ∃ pre post,
        closest :: rest = pre ++ (findMatchingGo t closest (some |closest.timestamp - t|) rest) :: post ∧
        (∀ x ∈ pre,
          |(findMatchingGo t closest (some |closest.timestamp - t|) rest).timestamp - t| <
            |x.timestamp - t|) ∧
        (∀ x ∈ post,
          |(findMatchingGo t closest (some |closest.timestamp - t|) rest).timestamp - t| ≤
            |x.timestamp - t|) := by
  induction rest with
  | nil =>
    intro closest
    refine ⟨by simp [findMatchingGo], [], [], by simp [findMatchingGo], by simp, by simp⟩
  | cons e rest ih =>
    intro closest
    by_cases hlt : |e.timestamp - t| < |closest.timestamp - t|
    · have hb : diffLtB |e.timestamp - t| (some |closest.timestamp - t|) = true := by
        simp [diffLtB, hlt]
      have hred : findMatchingGo t closest (some |closest.timestamp - t|) (e :: rest) =
          findMatchingGo t e (some |e.timestamp - t|) rest := by
        simp [findMatchingGo, hb]
      obtain ⟨hle, pre', post', heq, hpre, hpost⟩ := ih e
      rw [hred]
      have hlt' : |(findMatchingGo t e (some |e.timestamp - t|) rest).timestamp - t| <
          |closest.timestamp - t| := lt_of_le_of_lt hle hlt
      refine ⟨le_of_lt hlt', closest :: pre', post', ?_, ?_, hpost⟩
      · rw [List.cons_append, ← heq]
      · intro x hx
        rcases List.mem_cons.mp hx with hx | hx
        · rw [hx]
          exact hlt'
        · exact hpre x hx
    · have hge : |closest.timestamp - t| ≤ |e.timestamp - t| := le_of_not_lt hlt
      have hb : diffLtB |e.timestamp - t| (some |closest.timestamp - t|) = false := by
        simp [diffLtB, hlt]
      have hred : findMatchingGo t closest (some |closest.timestamp - t|) (e :: rest) =
          findMatchingGo t closest (some |closest.timestamp - t|) rest := by
        simp [findMatchingGo, hb]
      obtain ⟨hle, pre', post', heq, hpre, hpost⟩ := ih closest
      rw [hred]
      cases pre' with
      | nil =>
        rw [List.nil_append] at heq
        injection heq with hr hrest
        refine ⟨hle, [], e :: rest, ?_, by simp, ?_⟩
        · rw [List.nil_append, ← hr]
        · intro x hx
          rcases List.mem_cons.mp hx with hx | hx
          · rw [hx, ← hr]
            exact hge
          · exact hpost x (hrest ▸ hx)
      | cons p pre₂ =>
        rw [List.cons_append] at heq
        injection heq with hp hrest
        have hrp : |(findMatchingGo t closest (some |closest.timestamp - t|) rest).timestamp - t| <
            |closest.timestamp - t| := by
          have hmem := hpre p (List.mem_cons_self p pre₂)
          rw [← hp] at hmem
          exact hmem
        refine ⟨hle, closest :: e :: pre₂, post', ?_, ?_, hpost⟩
        · rw [List.cons_append, List.cons_append, ← hrest]
        · intro x hx
          rcases List.mem_cons.mp hx with hx | hx
          · rw [hx]
            exact hrp
          · rcases List.mem_cons.mp hx with hx2 | hx2
            · rw [hx2]
              exact lt_of_lt_of_le hrp hge
            · exact hpre x (List.mem_cons_of_mem p hx2)

/-- C5: the temporal aligner returns `none` on an empty secondary series;
on a non-empty series it returns an entry of the series attaining the
minimum of `|entryTime - targetInstant|`, and the first such entry in
input order (everything before it is strictly farther, everything after
it no closer). -/
theorem c5_nearest_neighbor (astroData : AstroData) (t : ℤ) :
    (astroData.hourly = [] → findMatchingAstroData astroData t = none) ∧
    (astroData.hourly ≠ [] →
      ∃ r pre post, findMatchingAstroData astroData t = some r ∧
        astroData.hourly = pre ++ r :: post ∧
        (∀ x ∈ pre, entryDist t r < entryDist t x) ∧
        (∀ x ∈ post, entryDist t r ≤ entryDist t x)) := by
  constructor
  · intro h
    simp [findMatchingAstroData, h]
  · intro h
    obtain ⟨h0, rest, hw⟩ := List.exists_cons_of_ne_nil h
    have hstep : findMatchingGo t h0 none (h0 :: rest) =
        findMatchingGo t h0 (some |h0.timestamp - t|) rest := by
      simp [findMatchingGo, diffLtB]
    obtain ⟨_, pre, post, heq, hpre, hpost⟩ := findMatchingGo_spec t rest h0
    refine ⟨findMatchingGo t h0 (some |h0.timestamp - t|) rest, pre, post, ?_, ?_, ?_, ?_⟩
    · rw [findMatchingAstroData, hw]
      simp [hstep]
    · rw [hw, heq]
    · intro x hx
      simpa [entryDist] using hpre x hx
    · intro x hx
      simpa [entryDist] using hpost x hx

/-- Three astro entries around the instant 50: the nearest is the middle
one at distance 10. -/
def c5Astro : AstroData :=
  { hourly := [{ timestamp := 100 }, { timestamp := 40 }, { timestamp := 60 }] }

theorem c5_nearest_neighbor_witness :
    ∃ r pre post, findMatchingAstroData c5Astro 50 = some r ∧
      c5Astro.hourly = pre ++ r :: post ∧
      (∀ x ∈ pre, entryDist 50 r < entryDist 50 x) ∧
      (∀ x ∈ post, entryDist 50 r ≤ entryDist 50 x) :=
  (c5_nearest_neighbor c5Astro 50).2 (by simp [c5Astro])

/-! ### Association-list lemmas for the cache proofs -/

theorem assocGet_assocSet_self (k : String) (v : β) (l : List (String × β)) :
    assocGet k (assocSet k v l) = some v := by
  induction l with
  | nil => simp [assocSet, assocGet]
  | cons p rest ih =>
    obtain ⟨k', v'⟩ := p
    by_cases h : k' = k
    · simp [assocSet, assocGet, h]
    · simp [assocSet, assocGet, h, ih]

theorem assocGet_eq_none (k : String) (l : List (String × β))
    (h : k ∉ l.map Prod.fst) : assocGet k l = none := by
  induction l with
  | nil => simp [assocGet]
  | cons p rest ih =>
    obtain ⟨k', v'⟩ := p
    simp only [List.map_cons, List.mem_cons] at h
    push_neg at h
    have hne : ¬ (k' = k) := fun hh => h.1 hh.symm
    simp [assocGet, hne, ih h.2]

theorem keys_assocSet (k : String) (v : β) (l : List (String × β)) :
    (assocSet k v l).map Prod.fst =
      if k ∈ l.map Prod.fst then l.map Prod.fst else l.map Prod.fst ++ [k] := by
  induction l with
  | nil => simp [assocSet]
  | cons p rest ih =>
    obtain ⟨k', v'⟩ := p
    by_cases h : k' = k
    · subst h
      simp [assocSet]
    · have h2 : ¬ (k = k') := fun hh => h hh.symm
      by_cases hm : k ∈ rest.map Prod.fst
      · simp [assocSet, h, ih, hm, h2]
      · simp [assocSet, h, ih, hm, h2]

theorem nodup_keys_assocSet (k : String) (v : β) (l : List (String × β))
    (h : (l.map Prod.fst).Nodup) : ((assocSet k v l).map Prod.fst).Nodup := by
  rw [keys_assocSet]
  by_cases hm : k ∈ l.map Prod.fst
  · simpa [hm] using h
  · simp [hm, List.nodup_append, h]

theorem assocGet_assocRemove_self (k : String) (l : List (String × β))
    (h : (l.map Prod.fst).Nodup) : assocGet k (assocRemove k l) = none := by
  induction l with
  | nil => simp [assocRemove, assocGet]
  | cons p rest ih =>
    obtain ⟨k', v'⟩ := p
    simp only [List.map_cons, List.nodup_cons] at h
    by_cases hk : k' = k
    · rw [← hk]
      simpa [assocRemove] using assocGet_eq_none k' rest h.1
    · simp [assocRemove, hk, assocGet, ih h.2]

/-- C4: after `set(key, value, ttl)` at time `t` (with the durable write
succeeding), a `get(key)` at `tp < t + ttl` returns the value unchanged,
and a `get(key)` at `tp ≥ t + ttl` returns absent and lazily purges the
entry from both tiers. -/
theorem c4_cache_ttl {α : Type} (key : String) (value : α) (ttl t tp : ℤ)
    (s : CacheState α) (hmem : (s.memoryCache.map Prod.fst).Nodup)
    (hst : (s.storage.map Prod.fst).Nodup) :
    (tp < t + ttl →
      (cacheGet key tp (cacheSet key value ttl t true s)).1 = some value) ∧
    (t + ttl ≤ tp →
      (cacheGet key tp (cacheSet key value ttl t true s)).1 = none ∧
      assocGet (generateKey key)
        (cacheGet key tp (cacheSet key value ttl t true s)).2.memoryCache = none ∧
      assocGet (generateKey key)
        (cacheGet key tp (cacheSet key value ttl t true s)).2.storage = none) := by
  have hms : (cacheSet key value ttl t true s).memoryCache =
      assocSet (generateKey key) ⟨value, t + ttl, t⟩ s.memoryCache := rfl
  have hss : (cacheSet key value ttl t true s).storage =
      assocSet (generateKey key) (some ⟨value, t + ttl, t⟩) s.storage := rfl
  constructor
  · intro htp
    simp only [cacheGet, hms]
    rw [assocGet_assocSet_self]
    simp [htp]
  · intro htp
    have hnlt : ¬ (tp < t + ttl) := not_lt.mpr htp
    have hget : cacheGet key tp (cacheSet key value ttl t true s) =
        (none,
          { memoryCache :=
              assocRemove (generateKey key)
                (assocSet (generateKey key) ⟨value, t + ttl, t⟩ s.memoryCache)
            storage :=
              assocRemove (generateKey key)
                (assocSet (generateKey key) (some ⟨value, t + ttl, t⟩) s.storage) }) := by
      simp only [cacheGet, hms]
      rw [assocGet_assocSet_self]
      simp only [hnlt, if_false]
      simp only [cacheGetStorage, hss]
      rw [assocGet_assocSet_self]
      simp [hnlt]
    rw [hget]
    refine ⟨rfl, ?_, ?_⟩
    · exact assocGet_assocRemove_self _ _ (nodup_keys_assocSet _ _ _ hmem)
    · exact assocGet_assocRemove_self _ _ (nodup_keys_assocSet _ _ _ hst)

theorem c4_cache_ttl_witness :
    ((cacheGet "k" 50 (cacheSet "k" 7 100 0 true ({} : CacheState ℕ))).1 = some 7) ∧
    ((cacheGet "k" 150 (cacheSet "k" 7 100 0 true ({} : CacheState ℕ))).1 = none) ∧
    assocGet (generateKey "k")
      (cacheGet "k" 150 (cacheSet "k" 7 100 0 true ({} : CacheState ℕ))).2.memoryCache = none ∧
    assocGet (generateKey "k")
      (cacheGet "k" 150 (cacheSet "k" 7 100 0 true ({} : CacheState ℕ))).2.storage = none :=
  ⟨(c4_cache_ttl "k" 7 100 0 50 {} (by simp) (by simp)).1 (by decide),
   (c4_cache_ttl "k" 7 100 0 150 {} (by simp) (by simp)).2 (by decide)⟩

/-! ### Eviction lemmas for the storage-full path -/

/-- The sorted `(key, timestamp)` list `_cleanupStorage` works on. -/
def evictionSorted (storage : List (String × Option (CacheEntryC α))) : List (String × ℤ) :=
  List.insertionSort (fun a b => a.2 ≤ b.2) (cleanupEntries storage)

/-- `Math.ceil(entries.length / 2)`. -/
def evictionCount (storage : List (String × Option (CacheEntryC α))) : ℕ :=
  ((cleanupEntries storage).length + 1) / 2

/-- The keys `_cleanupStorage` deletes: the oldest ⌈n/2⌉ by timestamp. -/
def evictedKeys (storage : List (String × Option (CacheEntryC α))) : List String :=
  ((evictionSorted storage).take (evictionCount storage)).map Prod.fst

theorem assocRemove_sublist (k : String) (l : List (String × β)) :
    List.Sublist (assocRemove k l) l := by
  induction l with
  | nil => simp [assocRemove]
  | cons p rest ih =>
    obtain ⟨k', v'⟩ := p
    by_cases h : k' = k
    · simp only [assocRemove, if_pos h]
      exact List.sublist_cons_self (k', v') rest
    · simpa [assocRemove, h] using ih.cons₂ (k', v')

theorem assocRemove_eq_filter (k : String) (l : List (String × β))
    (h : (l.map Prod.fst).Nodup) :
    assocRemove k l = l.filter (fun p => decide (p.1 ≠ k)) := by
  induction l with
  | nil => simp [assocRemove]
  | cons p rest ih =>
    obtain ⟨k', v'⟩ := p
    simp only [List.map_cons, List.nodup_cons] at h
    by_cases hk : k' = k
    · subst hk
      have hgoal : rest = List.filter (fun p => !decide (p.1 = k')) rest := by
        refine (List.filter_eq_self.mpr ?_).symm
        intro p hp
        simp only [Bool.not_eq_true', decide_eq_false_iff_not]
        intro hh
        exact h.1 (hh ▸ List.mem_map_of_mem Prod.fst hp)
      simpa [assocRemove] using hgoal
    · simp [assocRemove, hk, ih h.2]

theorem foldl_assocRemove_eq_filter (ks : List String) (l : List (String × β))
    (h : (l.map Prod.fst).Nodup) :
    ks.foldl (fun st k2 => assocRemove k2 st) l =
      l.filter (fun p => decide (p.1 ∉ ks)) := by
  induction ks generalizing l with
  | nil => simp
  | cons k2 ks ih =>
    rw [List.foldl_cons]
    have hnd : ((assocRemove k2 l).map Prod.fst).Nodup :=
      List.Nodup.sublist (List.Sublist.map Prod.fst (assocRemove_sublist k2 l)) h
    rw [ih (assocRemove k2 l) hnd, assocRemove_eq_filter k2 l h, List.filter_filter]
    apply List.filter_congr
    intro p hp
    rcases Decidable.em (p.1 = k2) with he | he <;>
      rcases Decidable.em (p.1 ∈ ks) with hm | hm <;> simp [he, hm]

instance : IsTotal (String × ℤ) (fun a b => a.2 ≤ b.2) := ⟨fun a b => le_total a.2 b.2⟩

instance : IsTrans (String × ℤ) (fun a b => a.2 ≤ b.2) := ⟨fun _ _ _ h1 h2 => le_trans h1 h2⟩

theorem cleanupStorage_eq_filter (storage : List (String × Option (CacheEntryC α)))
    (h : (storage.map Prod.fst).Nodup) :
    cleanupStorage storage = storage.filter (fun p => decide (p.1 ∉ evictedKeys storage)) := by
  have hfold : cleanupStorage storage =
      (evictedKeys storage).foldl (fun st k2 => assocRemove k2 st) storage := by
    unfold evictedKeys
    rw [List.foldl_map]
    rfl
  rw [hfold, foldl_assocRemove_eq_filter _ _ h]

/-- C8: a `set` whose durable write fails (storage full) is swallowed —
`cacheSet` is total and the new entry is readable (from the memory tier,
where it was written); eviction removes exactly the ⌈n/2⌉ cache entries
that come first in the timestamp-ascending stable sort (so each removed
entry is no newer than any kept one), and the durable tier is just the old
one minus those keys — the failed write is not retried. -/
theorem c8_storage_full_eviction {α : Type} (key : String) (value : α) (ttl t : ℤ)
    (s : CacheState α) (hst : (s.storage.map Prod.fst).Nodup) :
    (∀ tp, tp < t + ttl →
      (cacheGet key tp (cacheSet key value ttl t false s)).1 = some value) ∧
    assocGet (generateKey key) (cacheSet key value ttl t false s).memoryCache =
      some { data := value, expiry := t + ttl, timestamp := t } ∧
    (cacheSet key value ttl t false s).storage =
      s.storage.filter (fun p => decide (p.1 ∉ evictedKeys s.storage)) ∧
    (evictedKeys s.storage).length = evictionCount s.storage ∧
    (∀ a ∈ (evictionSorted s.storage).take (evictionCount s.storage),
      ∀ b ∈ (evictionSorted s.storage).drop (evictionCount s.storage), a.2 ≤ b.2) := by
  have hms : (cacheSet key value ttl t false s).memoryCache =
      assocSet (generateKey key) ⟨value, t + ttl, t⟩ s.memoryCache := rfl
  refine ⟨?_, ?_, ?_, ?_, ?_⟩
  · intro tp htp
    simp only [cacheGet, hms]
    rw [assocGet_assocSet_self]
    simp [htp]
  · rw [hms, assocGet_assocSet_self]
  · have hss : (cacheSet key value ttl t false s).storage = cleanupStorage s.storage := rfl
    rw [hss, cleanupStorage_eq_filter s.storage hst]
  · unfold evictedKeys evictionSorted evictionCount
    rw [List.length_map, List.length_take]
    have hlen : (List.insertionSort (fun a b : String × ℤ => a.2 ≤ b.2)
        (cleanupEntries s.storage)).length = (cleanupEntries s.storage).length :=
      (List.perm_insertionSort _ _).length_eq
    rw [hlen]
    omega
  · have hsorted : List.Sorted (fun a b : String × ℤ => a.2 ≤ b.2) (evictionSorted s.storage) :=
      List.sorted_insertionSort _ _
    have hsplit : evictionSorted s.storage =
        (evictionSorted s.storage).take (evictionCount s.storage) ++
          (evictionSorted s.storage).drop (evictionCount s.storage) :=
      (List.take_append_drop _ _).symm
    rw [hsplit] at hsorted
    exact (List.pairwise_append.mp hsorted).2.2

/-- A durable tier with three cache entries (timestamps 30, 10 and a
malformed one counting as 0) and one foreign key. -/
def c8State : CacheState ℕ :=
  { memoryCache := []
    storage := [(generateKey "a", some ⟨1, 1000, 30⟩), (generateKey "b", some ⟨2, 1000, 10⟩),
                ("other", some ⟨3, 1000, 5⟩), (generateKey "c", none)] }

theorem c8_storage_full_eviction_witness :
    ((cacheGet "x" 5 (cacheSet "x" 42 100 0 false c8State)).1 = some 42) ∧
    assocGet (generateKey "x") (cacheSet "x" 42 100 0 false c8State).memoryCache =
      some { data := 42, expiry := 100, timestamp := 0 } ∧
    (cacheSet "x" 42 100 0 false c8State).storage =
      c8State.storage.filter (fun p => decide (p.1 ∉ evictedKeys c8State.storage)) ∧
    (evictedKeys c8State.storage).length = evictionCount c8State.storage ∧
    (∀ a ∈ (evictionSorted c8State.storage).take (evictionCount c8State.storage),
      ∀ b ∈ (evictionSorted c8State.storage).drop (evictionCount c8State.storage), a.2 ≤ b.2) := by
  have h := c8_storage_full_eviction "x" 42 100 0 c8State (by decide)
  exact ⟨h.1 5 (by decide), h.2.1, h.2.2.1, h.2.2.2.1, h.2.2.2.2⟩

/-! ### Day-grouping lemmas -/

theorem dateKey_mono (tz : ℤ) {a b : ℤ} (h : a ≤ b) : dateKey tz a ≤ dateKey tz b := by
  unfold dateKey
  exact Int.ediv_le_ediv (by norm_num) (by omega)

theorem keys_insertHourGo (k : ℤ) (h : WeatherHour) (l : List (ℤ × List WeatherHour)) :
    (insertHourGo k h l).map Prod.fst =
      if k ∈ l.map Prod.fst then l.map Prod.fst else l.map Prod.fst ++ [k] := by
  induction l with
  | nil => simp [insertHourGo]
  | cons p rest ih =>
    obtain ⟨k', hs⟩ := p
    by_cases hk : k' = k
    · subst hk
      simp [insertHourGo]
    · have h2 : ¬ (k = k') := fun hh => hk hh.symm
      by_cases hm : k ∈ rest.map Prod.fst
      · simp [insertHourGo, hk, ih, hm, h2]
      · simp [insertHourGo, hk, ih, hm, h2]

theorem groupByDay_keys_sorted_aux (tz : ℤ) (hours : List WeatherHour) :
    ∀ acc : List (ℤ × List WeatherHour),
      (acc.map Prod.fst).Pairwise (· < ·) →
      (∀ k ∈ acc.map Prod.fst, ∀ h ∈ hours, k ≤ dateKey tz h.timestamp) →
      hours.Pairwise (fun a b => a.timestamp ≤ b.timestamp) →
      ((hours.foldl (fun acc h => insertHourGo (dateKey tz h.timestamp) h acc) acc).map
        Prod.fst).Pairwise (· < ·) := by
  induction hours with
  | nil =>
    intro acc hacc _ _
    simpa using hacc
  | cons h hs ih =>
    intro acc hacc hbound hsort
    rw [List.foldl_cons]
    obtain ⟨hhead, htail⟩ := List.pairwise_cons.mp hsort
    refine ih (insertHourGo (dateKey tz h.timestamp) h acc) ?_ ?_ htail
    · rw [keys_insertHourGo]
      by_cases hm : dateKey tz h.timestamp ∈ acc.map Prod.fst
      · simpa [hm] using hacc
      · rw [if_neg hm, List.pairwise_append]
        refine ⟨hacc, by simp, ?_⟩
        intro a ha b hb
        simp only [List.mem_singleton] at hb
        subst hb
        have hle : a ≤ dateKey tz h.timestamp := hbound a ha h (List.mem_cons_self h hs)
        exact lt_of_le_of_ne hle (fun hh => hm (hh ▸ ha))
    · intro k hk h' hh'
      rw [keys_insertHourGo] at hk
      by_cases hm : dateKey tz h.timestamp ∈ acc.map Prod.fst
      · rw [if_pos hm] at hk
        exact hbound k hk h' (List.mem_cons_of_mem h hh')
      · rw [if_neg hm] at hk
        rcases List.mem_append.mp hk with hk | hk
        · exact hbound k hk h' (List.mem_cons_of_mem h hh')
        · simp only [List.mem_singleton] at hk
          subst hk
          exact dateKey_mono tz (hhead h' hh')

theorem groupByDay_keys_sorted (tz : ℤ) (hours : List WeatherHour)
    (hsort : hours.Pairwise (fun a b => a.timestamp ≤ b.timestamp)) :
    ((groupByDay tz hours).map Prod.fst).Pairwise (· < ·) :=
  groupByDay_keys_sorted_aux tz hours [] (by simp) (by simp) hsort

theorem buildDay_date (tz : ℤ) (mode : String) (astroData : AstroData)
    (moonData : Option MoonData) (dk : ℤ) (hours : List WeatherHour) :
    (buildDay tz mode astroData moonData dk hours).date = dk := by
  simp only [buildDay]
  split <;> rfl

/-- C6: on an hourly weather series sorted ascending by timestamp, the
forecast builder produces at most four `DayForecast` entries whose local
calendar dates are strictly increasing. -/
theorem c6_forecast_dates (tz : ℤ) (mode : String) (weatherData : WeatherData)
    (astroData : AstroData) (astron : Option Astronomical)
    (hsorted : weatherData.hourly.Pairwise (fun a b => a.timestamp ≤ b.timestamp)) :
    (buildForecastData tz mode weatherData astroData astron).length ≤ 4 ∧
    ((buildForecastData tz mode weatherData astroData astron).map
      (fun d => d.date)).Pairwise (· < ·) := by
  have hdates : (buildForecastData tz mode weatherData astroData astron).map (fun d => d.date) =
      ((groupByDay tz weatherData.hourly).take 4).map Prod.fst := by
    simp only [buildForecastData, List.map_map]
    have hcongr : ∀ p ∈ ((groupByDay tz weatherData.hourly).take 4).enum,
        ((fun d : DayForecast => d.date) ∘ fun p : ℕ × (ℤ × List WeatherHour) =>
          buildDay tz mode astroData (astron.bind fun a => a.moonPhases.get? p.1) p.2.1 p.2.2) p =
          (Prod.fst ∘ Prod.snd) p := by
      intro p _
      exact buildDay_date tz mode astroData _ p.2.1 p.2.2
    rw [List.map_congr_left hcongr, ← List.map_map, List.enum_map_snd]
  constructor
  · simp only [buildForecastData, List.length_map, List.enum_length, List.length_take]
    exact min_le_left 4 _
  · rw [hdates, List.map_take]
    exact (groupByDay_keys_sorted tz weatherData.hourly hsorted).sublist (List.take_sublist 4 _)

/-- A one-record series, trivially sorted. -/
def c6Weather : WeatherData := { hourly := [{ timestamp := 0 }] }

theorem c6_forecast_dates_witness :
    (buildForecastData 0 "general" c6Weather {} none).length ≤ 4 ∧
    ((buildForecastData 0 "general" c6Weather {} none).map (fun d => d.date)).Pairwise (· < ·) :=
  c6_forecast_dates 0 "general" c6Weather {} none (by simp [c6Weather])

/-- C3: a failed seeing-feed fetch (network error or non-2xx) is recovered
by substituting the default astro data, and the fused conditions then carry
seeing 3, transparency 3 and the "Durchschnittlich" (average) labels while
processing proceeds; a failed weather-feed fetch is not recovered —
`fetchWeatherData` propagates an error to its caller. -/
theorem c3_fetch_failure_semantics :
    (∀ (tz now : ℤ) (weatherData : WeatherData) (astron : Option Astronomical)
      (resp : Option (HttpResponse SevenTimerPayload)),
      fetchFailed resp → weatherData.hourly ≠ [] →
      ∃ c, processWeatherDataApp tz now weatherData (fetchAstroData now none resp) astron =
          some c ∧
        c.seeing = some 3 ∧ c.transparency = some 3 ∧
        c.seeingLabel = some "Durchschnittlich" ∧
        c.transparencyLabel = some "Durchschnittlich") ∧
    (∀ wresp : Option (HttpResponse OpenMeteoPayload),
      fetchFailed wresp → ∃ e, fetchWeatherData none wresp = Except.error e) := by
  constructor
  · intro tz now weatherData astron resp hfail hne
    have hast : fetchAstroData now none resp = getDefaultAstroData := by
      cases resp with
      | none => rfl
      | some r =>
        have hok : r.ok = false := hfail r rfl
        simp [fetchAstroData, hok]
    rw [hast]
    obtain ⟨h0, rest, hw⟩ := List.exists_cons_of_ne_nil hne
    simp only [processWeatherDataApp, hw]
    exact ⟨_, rfl, rfl, rfl, rfl, rfl⟩
  · intro wresp hfail
    cases wresp with
    | none => exact ⟨"Weather fetch failed", rfl⟩
    | some r =>
      have hok : r.ok = false := hfail r rfl
      exact ⟨"Weather API error", by simp [fetchWeatherData, hok]⟩

/-- A one-record weather series for the witness. -/
def c3Weather : WeatherData := { hourly := [{ timestamp := 0 }] }

theorem c3_fetch_failure_semantics_witness :
    (∃ c, processWeatherDataApp 0 0 c3Weather (fetchAstroData 0 none none) none = some c ∧
      c.seeing = some 3 ∧ c.transparency = some 3 ∧
      c.seeingLabel = some "Durchschnittlich" ∧
      c.transparencyLabel = some "Durchschnittlich") ∧
    (∃ e, fetchWeatherData none (none : Option (HttpResponse OpenMeteoPayload)) =
      Except.error e) :=
  ⟨c3_fetch_failure_semantics.1 0 0 c3Weather none none (by simp [fetchFailed])
      (by simp [c3Weather]),
   c3_fetch_failure_semantics.2 none (by simp [fetchFailed])⟩

end SkyReady
